import Mathlib

/-!
Verification of the media analysis and annotation pipeline of
`src/backend/app.py` (Smart-AI-Traffic-Violation).

The Python source is shallowly embedded: frames are lists of pixel rows,
the external collaborators (YOLO inference, Supabase storage and record
store, OpenCV text metrics and glyph rendering, video container decode)
are oracle fields of an `Env` record, and the `/analyze` handler is a
function threading an explicit `Trace` of observable effects (collaborator
calls, published artifacts, stream-handle open/close state, frames written
to the output sink).  Raised Python exceptions are `Except` errors carrying
the message string; the `try/except` at the request boundary is the final
`match` in `analyze`.
-/

namespace TrafficViolation

/-- A BGR pixel, one byte per channel. -/
abbrev Pix := Nat × Nat × Nat

/-- A decoded raster frame: rows of pixels (`np.ndarray` contents). -/
abbrev Frame := List (List Pix)

/-- A detection box, `map(int, box[:4])` of the YOLO xyxy output. -/
structure Box where
  x1 : Int
  y1 : Int
  x2 : Int
  y2 : Int
deriving DecidableEq, Repr

/-- One detection: the box plus its already-formatted label string
(`f"{names[c]} {conf:.2f}"`; class id and confidence only feed this string,
so the embedding carries the rendered label directly). -/
structure Det where
  box : Box
  label : String
deriving DecidableEq, Repr

/-- Python exception payload: `str(e)`. -/
abbrev PyErr := String

/-- The red color `(0, 0, 255)` used for boxes and label tags. -/
def red : Pix := (0, 0, 255)

/-- The white color `(255, 255, 255)` used for label text. -/
def white : Pix := (255, 255, 255)

/-- Membership of pixel (row `r`, column `c`) in the closed rectangle. -/
def inRect (x1 y1 x2 y2 : Int) (r c : Int) : Bool :=
  decide (x1 ≤ c) && decide (c ≤ x2) && decide (y1 ≤ r) && decide (r ≤ y2)

/-- `cv2.rectangle`: thickness `-1` (negative) fills the rectangle, a
positive thickness paints a border band of that width just inside the
rectangle. -/
def paintRect (f : Frame) (x1 y1 x2 y2 : Int) (th : Int) (color : Pix) : Frame :=
  f.mapIdx fun r row =>
    row.mapIdx fun c p =>
      if inRect x1 y1 x2 y2 (Int.ofNat r) (Int.ofNat c) &&
         (decide (th < 0) ||
          !inRect (x1 + th) (y1 + th) (x2 - th) (y2 - th) (Int.ofNat r) (Int.ofNat c))
      then color else p

/-- OpenCV text collaborators: `cv2.getTextSize` (width, height of a label)
and `cv2.putText` (glyph rendering onto a frame at a position, in a color).
Their pixel-level output is opaque; theorems hold for every rendering. -/
structure CvText where
  getTextSize : String → Int × Int
  putText : Frame → String → Int → Int → Pix → Frame

/-- The body of one iteration of the loop in `draw_boxes_on_image`
(src/backend/app.py lines 68-73): box outline, filled label background,
label text. -/
def drawOne (cvt : CvText) (f : Frame) (b : Box) (label : String) : Frame :=
  let f1 := paintRect f b.x1 b.y1 b.x2 b.y2 2 red
  let wh := cvt.getTextSize label
  let f2 := paintRect f1 b.x1 (b.y1 - wh.2 - 6) (b.x1 + wh.1 + 6) b.y1 (-1) red
  cvt.putText f2 label (b.x1 + 3) (b.y1 - 4) white

/-- Value-level result of `draw_boxes_on_image` (lines 65-74): fold of
`drawOne` over the detections in emission order (`zip` of boxes and
labels, which the call sites always pass with equal length). -/
def draw_boxes_pure (cvt : CvText) (f : Frame) (dets : List Det) : Frame :=
  dets.foldl (fun acc d => drawOne cvt acc d.box d.label) f

/-- The annotation step shared by the image path (line 87) and the video
loop (line 205): draw only when at least one detection exists, otherwise
use the original frame object unmodified. -/
def annStep (cvt : CvText) (dets : List Det) (f : Frame) : Frame :=
  if dets.length > 0 then draw_boxes_pure cvt f dets else f

/-- Python's `str.startswith`, used on the declared mimetype. -/
def pyStartsWith (s p : String) : Bool := p.data.isPrefixOf s.data

/-- Outward response body: the JSON shapes produced by `analyze`. -/
inductive RespBody
  | err (msg : String)
  | image (violation : Bool) (vtype ts url b64 : String)
  | video (violation : Bool) (vtype ts url : String)
deriving DecidableEq, Repr

/-- An HTTP response: status code plus body. -/
structure Response where
  status : Nat
  body : RespBody
deriving DecidableEq, Repr

/-- The `violation` boolean of a response body, when present. -/
def RespBody.violationFlag : RespBody → Option Bool
  | .image v _ _ _ _ => some v
  | .video v _ _ _ => some v
  | .err _ => none

/-- The `violation_type` label of a response body, when present. -/
def RespBody.vtypeLabel : RespBody → Option String
  | .image _ v _ _ _ => some v
  | .video _ v _ _ => some v
  | .err _ => none

/-- The `file_url` of a response body, when present. -/
def RespBody.urlOf : RespBody → Option String
  | .image _ _ _ u _ => some u
  | .video _ _ _ u => some u
  | .err _ => none

/-- Observable effects of one `/analyze` request. -/
structure Trace where
  uploadCalls : Nat := 0
  insertCalls : Nat := 0
  recordInserted : Bool := false
  publishedUrls : List String := []
  capOpen : Bool := false
  writerOpen : Bool := false
  writerFps : Option ℚ := none
  writtenFrames : List Frame := []
  savedImages : List (String × Frame) := []
  encodedFrames : List Frame := []
deriving DecidableEq, Repr

/-- The empty trace at the start of a request. -/
def Trace.init : Trace := {}

/-- External collaborators and environment of one request, as oracles:
`ensureServices` is the lazy `init_supabase`/`init_model` pair (lines
144-148), `imdecode` is `cv2.imdecode`, `infer` is the `model(...)` call
returning the per-frame Detection Set (or raising), `upload` is
`upload_to_supabase_storage` outcome (local path, dest path → public url),
`insertRes` is the record-store outcome of `insert_violation_record`
(filename, violation_type, timestamp, url), `b64` is
`encode_image_to_base64`, `now` the UTC ISO-8601 timestamp, `outId` the
fresh uuid hex, `openVideo` is `cv2.VideoCapture` on the written temp file
(`none` when `cap.isOpened()` is false, else the reported fps and frame
sequence). -/
structure Env where
  ensureServices : Except PyErr Unit
  imdecode : List Nat → Frame
  infer : Frame → Except PyErr (List Det)
  cvt : CvText
  upload : String → String → Except PyErr String
  insertRes : String → String → String → String → Except PyErr Unit
  b64 : Frame → String
  now : String
  outId : String
  openVideo : List Nat → Option (ℚ × List Frame)

/-- An incoming multipart request: presence of the `file` part, its
filename (after the `or` default), declared mimetype, and raw bytes. -/
structure Request where
  hasFile : Bool
  filename : String
  mimetype : String
  content : List Nat

/-- `run_yolo_on_image_bytes` (lines 77-88): decode, infer, annotate only
when boxes are non-empty; returns (original, annotated, detections). -/
def run_yolo_on_image_bytes (env : Env) (file_bytes : List Nat) :
    Except PyErr (Frame × Frame × List Det) :=
  let img_bgr := env.imdecode file_bytes
  match env.infer img_bgr with
  | .error e => .error e
  | .ok dets => .ok (img_bgr, annStep env.cvt dets img_bgr, dets)

/-- The image branch of `analyze` (lines 152-174): run YOLO, save the
chosen frame locally, upload to storage, insert the violation record,
base64-encode the chosen frame, build the JSON response. -/
def analyzeImage (env : Env) (req : Request) (t : Trace) :
    Except PyErr Response × Trace :=
  match run_yolo_on_image_bytes env req.content with
  | .error e => (.error e, t)
  | .ok (original_img, annotated_img, dets) =>
    let had_detections := decide (dets.length > 0)
    let temp_out_path := "results/" ++ env.outId ++ "_annotated.jpg"
    let chosen := if had_detections then annotated_img else original_img
    let t1 := { t with savedImages := t.savedImages ++ [(temp_out_path, chosen)] }
    let dest_path := "images/" ++ env.outId ++ ".jpg"
    let t2 := { t1 with uploadCalls := t1.uploadCalls + 1 }
    match env.upload temp_out_path dest_path with
    | .error e => (.error e, t2)
    | .ok public_url =>
      let t3 := { t2 with publishedUrls := t2.publishedUrls ++ [public_url] }
      let violation_type := if had_detections then "Violation Detected" else "No Violation"
      let t4 := { t3 with insertCalls := t3.insertCalls + 1 }
      match env.insertRes req.filename violation_type env.now public_url with
      | .error e => (.error e, t4)
      | .ok _ =>
        let t5 := { t4 with recordInserted := true }
        let t6 := { t5 with encodedFrames := t5.encodedFrames ++ [chosen] }
        (.ok ⟨200, .image had_detections violation_type env.now public_url (env.b64 chosen)⟩, t6)

/-- The `while True` frame loop of the video branch (lines 194-208):
read, infer (may raise), annotate when boxes are non-empty, accumulate
`any_detections`, write the frame to the output sink. -/
def videoLoop (env : Env) : List Frame → Bool → Trace → Except PyErr Bool × Trace
  | [], any_detections, t => (.ok any_detections, t)
  | frame :: rest, any_detections, t =>
    match env.infer frame with
    | .error e => (.error e, t)
    | .ok dets =>
      let annotated := annStep env.cvt dets frame
      let any2 := if dets.length > 0 then true else any_detections
      let t1 := { t with writtenFrames := t.writtenFrames ++ [annotated] }
      videoLoop env rest any2 t1

/-- The video branch of `analyze` (lines 176-224): write temp input, open
the capture (400 when it fails to open), fps fallback via Python `or`
truthiness, open the writer, run the frame loop, release both handles,
upload, insert the record, build the JSON response. -/
def analyzeVideo (env : Env) (req : Request) (t : Trace) :
    Except PyErr Response × Trace :=
  match env.openVideo req.content with
  | none => (.ok ⟨400, .err "Failed to read video"⟩, t)
  | some (srcFps, frames) =>
    let fps := if srcFps = 0 then 24 else srcFps
    let t2 := { t with capOpen := true, writerOpen := true, writerFps := some fps }
    match videoLoop env frames false t2 with
    | (.error e, t3) => (.error e, t3)
    | (.ok any_detections, t3) =>
      let t4 := { t3 with capOpen := false, writerOpen := false }
      let temp_out_path := "results/" ++ env.outId ++ "_annotated.mp4"
      let dest_path := "videos/" ++ env.outId ++ ".mp4"
      let t5 := { t4 with uploadCalls := t4.uploadCalls + 1 }
      match env.upload temp_out_path dest_path with
      | .error e => (.error e, t5)
      | .ok public_url =>
        let t6 := { t5 with publishedUrls := t5.publishedUrls ++ [public_url] }
        let violation_type := if any_detections then "Violation Detected" else "No Violation"
        let t7 := { t6 with insertCalls := t6.insertCalls + 1 }
        match env.insertRes req.filename violation_type env.now public_url with
        | .error e => (.error e, t7)
        | .ok _ =>
          (.ok ⟨200, .video any_detections violation_type env.now public_url⟩,
           { t7 with recordInserted := true })

/-- The body of the `try` block of `analyze` (lines 130-224): file
presence check, content-type gate, lazy service init, dispatch to the
image or video branch. -/
def analyzeBody (env : Env) (req : Request) (t : Trace) :
    Except PyErr Response × Trace :=
  if req.hasFile = false then (.ok ⟨400, .err "No file provided"⟩, t)
  else
    let is_image := pyStartsWith req.mimetype "image/"
    let is_video := pyStartsWith req.mimetype "video/"
    if (is_image || is_video) = false then (.ok ⟨400, .err "Unsupported file type"⟩, t)
    else
      match env.ensureServices with
      | .error e => (.error e, t)
      | .ok _ => if is_image then analyzeImage env req t else analyzeVideo env req t

/-- The `/analyze` handler (lines 127-227): the `try` body, with every
raised exception caught at the boundary and converted to a 500 error
response carrying `str(e)`. -/
def analyze (env : Env) (req : Request) : Response × Trace :=
  match analyzeBody env req Trace.init with
  | (.ok r, t) => (r, t)
  | (.error e, t) => (⟨500, .err e⟩, t)

/-! ### Heap model of numpy arrays, for the mutation claim about
`draw_boxes_on_image` (the function mutates a copy in place via
`cv2.rectangle`/`cv2.putText`, never its argument). -/

/-- A heap of numpy array cells; a reference is an index. -/
structure Store where
  cells : List Frame
deriving DecidableEq, Repr

/-- Dereference a cell. -/
def Store.read (s : Store) (r : Nat) : Frame := s.cells.getD r []

/-- Overwrite a cell in place. -/
def Store.write (s : Store) (r : Nat) (f : Frame) : Store := ⟨s.cells.set r f⟩

/-- `image_bgr.copy()` (line 66): allocate a fresh cell with the given
contents, returning the new store and the fresh reference. -/
def Store.alloc (s : Store) (f : Frame) : Store × Nat :=
  (⟨s.cells ++ [f]⟩, s.cells.length)

/-- `cv2.rectangle(arr, ...)` as an in-place paint on cell `r`. -/
def cvRectangleS (s : Store) (r : Nat) (x1 y1 x2 y2 : Int) (th : Int)
    (color : Pix) : Store :=
  s.write r (paintRect (s.read r) x1 y1 x2 y2 th color)

/-- `cv2.putText(arr, ...)` as an in-place render on cell `r`. -/
def putTextS (cvt : CvText) (s : Store) (r : Nat) (label : String)
    (x y : Int) (color : Pix) : Store :=
  s.write r (cvt.putText (s.read r) label x y color)

/-- The `for i, box in enumerate(boxes)` loop of `draw_boxes_on_image`
(lines 67-73), mutating only the cell `annotated`: outline rectangle,
filled label background, label text, per detection. -/
def drawDetLoop (cvt : CvText) (annotated : Nat) :
    List (Box × String) → Store → Store
  | [], s => s
  | (b, label) :: rest, s =>
    let s1 := cvRectangleS s annotated b.x1 b.y1 b.x2 b.y2 2 red
    let wh := cvt.getTextSize label
    let s2 := cvRectangleS s1 annotated b.x1 (b.y1 - wh.2 - 6)
      (b.x1 + wh.1 + 6) b.y1 (-1) red
    let s3 := putTextS cvt s2 annotated label (b.x1 + 3) (b.y1 - 4) white
    drawDetLoop cvt annotated rest s3

/-- `draw_boxes_on_image(image_bgr, boxes, labels)` (lines 65-74) with
reference semantics: copy the input cell, draw every detection onto the
copy, return the copy's reference. -/
def draw_boxes_on_image (cvt : CvText) (s : Store) (image_bgr : Nat)
    (boxes : List Box) (labels : List String) : Store × Nat :=
  let p := s.alloc (s.read image_bgr)
  (drawDetLoop cvt p.2 (boxes.zip labels) p.1, p.2)

/-! ### Concrete material for closed instances -/

/-- A concrete 2×2 frame. -/
def frameW : Frame := [[(1, 2, 3), (4, 5, 6)], [(7, 8, 9), (10, 11, 12)]]

/-- A concrete OpenCV text oracle: fixed text size, glyph rendering that
leaves the frame unchanged. -/
def cvtW : CvText := ⟨fun _ => (3, 2), fun f _ _ _ _ => f⟩

/-- A concrete detection. -/
def detW : Det := ⟨⟨0, 0, 1, 1⟩, "car 0.90"⟩

/-- A concrete environment in which every collaborator step succeeds and
every frame yields one detection. -/
def envW : Env where
  ensureServices := .ok ()
  imdecode := fun _ => frameW
  infer := fun _ => .ok [detW]
  cvt := cvtW
  upload := fun _ _ => .ok "https://store.example/u"
  insertRes := fun _ _ _ _ => .ok ()
  b64 := fun _ => "b64data"
  now := "2026-01-01T00:00:00+00:00"
  outId := "abc123"
  openVideo := fun _ => some (30, [frameW, frameW])

/-- A variant of `envW` whose detector finds nothing. -/
def envNoDet : Env := { envW with infer := fun _ => .ok [] }

/-- A variant of `envW` whose detector raises on every frame. -/
def envBoom : Env := { envW with infer := fun _ => .error "inference failed" }

/-- A variant of `envW` whose service initialization raises. -/
def envSvcFail : Env := { envW with ensureServices := .error "Missing required environment variable: SUPABASE_URL" }

/-- A variant of `envW` whose video source reports fps 0. -/
def envFps0 : Env := { envW with openVideo := fun _ => some (0, [frameW]) }

/-- A concrete image request. -/
def reqImgW : Request := ⟨true, "a.jpg", "image/jpeg", [1, 2, 3]⟩

/-- A concrete video request. -/
def reqVidW : Request := ⟨true, "a.mp4", "video/mp4", [1, 2, 3]⟩

/-- A concrete request with an unsupported content type. -/
def reqTxtW : Request := ⟨true, "a.txt", "text/plain", [1, 2, 3]⟩

/-- A concrete one-cell store for the heap claims. -/
def storeW : Store := ⟨[frameW]⟩

/-! ### Basic lemmas -/

theorem Store.read_write_ne (s : Store) (r r2 : Nat) (f : Frame)
    (h : r2 ≠ r) : (s.write r f).read r2 = s.read r2 := by
  simp [Store.read, Store.write, List.getD, List.getElem?_set_ne (Ne.symm h)]

theorem drawDetLoop_read_ne (cvt : CvText) (annotated : Nat)
    (items : List (Box × String)) (s : Store) (r : Nat) (h : r ≠ annotated) :
    (drawDetLoop cvt annotated items s).read r = s.read r := by
  induction items generalizing s with
  | nil => rfl
  | cons it rest ih =>
    obtain ⟨b, label⟩ := it
    simp only [drawDetLoop, cvRectangleS, putTextS]
    rw [ih]
    rw [Store.read_write_ne _ _ _ _ h, Store.read_write_ne _ _ _ _ h,
      Store.read_write_ne _ _ _ _ h]

theorem Store.read_alloc_lt (s : Store) (f : Frame) (r : Nat)
    (h : r < s.cells.length) : (s.alloc f).1.read r = s.read r := by
  simp [Store.alloc, Store.read, List.getD, List.getElem?_append, h]

/-- `videoLoop` on a list of frames whose inference all succeeds: the
verdict is the accumulator or-ed with per-frame detection presence, and
exactly the annotation-step images are appended to the written frames, in
order. -/
theorem videoLoop_ok (env : Env) (det : Frame → List Det)
    (frames : List Frame) (a : Bool) (t : Trace)
    (h : ∀ f ∈ frames, env.infer f = .ok (det f)) :
    videoLoop env frames a t =
      (.ok (a || frames.any fun f => decide ((det f).length > 0)),
       { t with writtenFrames :=
          t.writtenFrames ++ frames.map fun f => annStep env.cvt (det f) f }) := by
  induction frames generalizing a t with
  | nil => simp [videoLoop]
  | cons f rest ih =>
    have hf := h f (List.mem_cons_self f rest)
    have hrest : ∀ g ∈ rest, env.infer g = .ok (det g) :=
      fun g hg => h g (List.mem_cons_of_mem f hg)
    simp only [videoLoop, hf]
    rw [ih _ _ hrest]
    simp only [Prod.mk.injEq]
    refine ⟨?_, ?_⟩
    · by_cases hd : (det f).length > 0 <;> simp [hd, List.any_cons]
    · simp [List.append_assoc]

/-- `videoLoop` only appends written frames: every other trace field is
preserved, on the error exit as well as the normal one. -/
theorem videoLoop_trace (env : Env) (frames : List Frame) (a : Bool)
    (t : Trace) :
    ∃ ws, (videoLoop env frames a t).2 =
      { t with writtenFrames := t.writtenFrames ++ ws } := by
  induction frames generalizing a t with
  | nil => exact ⟨[], by simp [videoLoop]⟩
  | cons f rest ih =>
    cases hf : env.infer f with
    | error e => exact ⟨[], by simp [videoLoop, hf]⟩
    | ok dets =>
      obtain ⟨ws, hws⟩ := ih (if dets.length > 0 then true else a)
        { t with writtenFrames := t.writtenFrames ++ [annStep env.cvt dets f] }
      refine ⟨annStep env.cvt dets f :: ws, ?_⟩
      simp only [videoLoop, hf]
      rw [hws]
      simp

/-- Routing: a present file with a `video/*` (and not `image/*`) mimetype
and successful service initialization reaches the video branch. -/
theorem analyzeBody_video (env : Env) (req : Request) (t : Trace)
    (hfile : req.hasFile = true)
    (himg : pyStartsWith req.mimetype "image/" = false)
    (hvid : pyStartsWith req.mimetype "video/" = true)
    (hsvc : env.ensureServices = .ok ()) :
    analyzeBody env req t = analyzeVideo env req t := by
  simp [analyzeBody, hfile, himg, hvid, hsvc]

/-- Routing: a present file with an `image/*` mimetype and successful
service initialization reaches the image branch. -/
theorem analyzeBody_image (env : Env) (req : Request) (t : Trace)
    (hfile : req.hasFile = true)
    (himg : pyStartsWith req.mimetype "image/" = true)
    (hsvc : env.ensureServices = .ok ()) :
    analyzeBody env req t = analyzeImage env req t := by
  simp [analyzeBody, hfile, himg, hsvc]

/-- Full evaluation of the video branch when every collaborator step
succeeds. -/
theorem analyzeVideo_all_ok (env : Env) (req : Request) (t : Trace)
    (det : Frame → List Det) (srcFps : ℚ) (frames : List Frame) (url : String)
    (hopen : env.openVideo req.content = some (srcFps, frames))
    (hdet : ∀ f ∈ frames, env.infer f = .ok (det f))
    (hup : ∀ p d, env.upload p d = .ok url)
    (hins : ∀ a b c d, env.insertRes a b c d = .ok ()) :
    analyzeVideo env req t =
      (.ok ⟨200, .video (frames.any fun f => decide ((det f).length > 0))
          (if frames.any fun f => decide ((det f).length > 0) then "Violation Detected"
           else "No Violation")
          env.now url⟩,
       { t with
          uploadCalls := t.uploadCalls + 1,
          insertCalls := t.insertCalls + 1,
          recordInserted := true,
          publishedUrls := t.publishedUrls ++ [url],
          capOpen := false,
          writerOpen := false,
          writerFps := some (if srcFps = 0 then 24 else srcFps),
          writtenFrames := t.writtenFrames ++
            frames.map fun f => annStep env.cvt (det f) f }) := by
  simp only [analyzeVideo, hopen]
  rw [videoLoop_ok env det frames false _ hdet]
  simp [hup, hins]

/-- Full evaluation of the image branch when every collaborator step
succeeds. -/
theorem analyzeImage_all_ok (env : Env) (req : Request) (t : Trace)
    (dets : List Det) (url : String)
    (hinf : env.infer (env.imdecode req.content) = .ok dets)
    (hup : ∀ p d, env.upload p d = .ok url)
    (hins : ∀ a b c d, env.insertRes a b c d = .ok ()) :
    analyzeImage env req t =
      (.ok ⟨200, .image (decide (dets.length > 0))
          (if decide (dets.length > 0) then "Violation Detected" else "No Violation")
          env.now url
          (env.b64 (if decide (dets.length > 0)
            then annStep env.cvt dets (env.imdecode req.content)
            else env.imdecode req.content))⟩,
       { t with
          uploadCalls := t.uploadCalls + 1,
          insertCalls := t.insertCalls + 1,
          recordInserted := true,
          publishedUrls := t.publishedUrls ++ [url],
          savedImages := t.savedImages ++
            [("results/" ++ env.outId ++ "_annotated.jpg",
              if decide (dets.length > 0)
              then annStep env.cvt dets (env.imdecode req.content)
              else env.imdecode req.content)],
          encodedFrames := t.encodedFrames ++
            [if decide (dets.length > 0)
             then annStep env.cvt dets (env.imdecode req.content)
             else env.imdecode req.content] }) := by
  simp only [analyzeImage, run_yolo_on_image_bytes, hinf]
  simp [hup, hins]

/-- The trace component of `analyze` is the trace component of the `try`
body, whether or not an exception was raised. -/
theorem analyze_snd (env : Env) (req : Request) :
    (analyze env req).2 = (analyzeBody env req Trace.init).2 := by
  unfold analyze
  rcases h : analyzeBody env req Trace.init with ⟨r, tr⟩
  cases r <;> rfl

/-! ### Claim theorems -/

/-- Claim C1: for every video processed by the `/analyze` video path, the
`violation` boolean of the response equals the logical OR over all frames
of the stream of "this frame's Detection Set is non-empty", and for a
stream with zero frames the verdict is `false`. -/
theorem video_verdict_is_or_of_frames (env : Env) (req : Request)
    (det : Frame → List Det) (srcFps : ℚ) (frames : List Frame) (url : String)
    (hfile : req.hasFile = true)
    (himg : pyStartsWith req.mimetype "image/" = false)
    (hvid : pyStartsWith req.mimetype "video/" = true)
    (hsvc : env.ensureServices = .ok ())
    (hopen : env.openVideo req.content = some (srcFps, frames))
    (hdet : ∀ f ∈ frames, env.infer f = .ok (det f))
    (hup : ∀ p d, env.upload p d = .ok url)
    (hins : ∀ a b c d, env.insertRes a b c d = .ok ()) :
    (analyze env req).1.body.violationFlag
        = some (frames.any fun f => decide ((det f).length > 0))
    ∧ (frames = [] → (analyze env req).1.body.violationFlag = some false) := by
  have hb := analyzeBody_video env req Trace.init hfile himg hvid hsvc
  have hv := analyzeVideo_all_ok env req Trace.init det srcFps frames url
    hopen hdet hup hins
  constructor
  · simp [analyze, hb, hv, RespBody.violationFlag]
  · intro h
    subst h
    simp [analyze, hb, hv, RespBody.violationFlag]

/-- Closed instance of `video_verdict_is_or_of_frames`: a two-frame video
whose frames each carry one detection yields verdict `true`. -/
theorem video_verdict_is_or_of_frames_witness :
    (analyze envW reqVidW).1.body.violationFlag = some true := by
  have h := video_verdict_is_or_of_frames envW reqVidW (fun _ => [detW]) 30
    [frameW, frameW] "https://store.example/u" rfl rfl rfl rfl rfl
    (fun _ _ => rfl) (fun _ _ => rfl) (fun _ _ _ _ => rfl)
  simpa using h.1

/-- Claim C2: for every image processed by the `/analyze` image path, the
verdict equals "the single frame's Detection Set is non-empty", and the
`violation_type` label is "Violation Detected" exactly when the verdict is
true and "No Violation" exactly when it is false. -/
theorem image_verdict_and_label (env : Env) (req : Request)
    (dets : List Det) (url : String)
    (hfile : req.hasFile = true)
    (himg : pyStartsWith req.mimetype "image/" = true)
    (hsvc : env.ensureServices = .ok ())
    (hinf : env.infer (env.imdecode req.content) = .ok dets)
    (hup : ∀ p d, env.upload p d = .ok url)
    (hins : ∀ a b c d, env.insertRes a b c d = .ok ()) :
    (analyze env req).1.body.violationFlag = some (decide (dets.length > 0))
    ∧ ((analyze env req).1.body.violationFlag = some true ↔
        (analyze env req).1.body.vtypeLabel = some "Violation Detected")
    ∧ ((analyze env req).1.body.violationFlag = some false ↔
        (analyze env req).1.body.vtypeLabel = some "No Violation") := by
  have hb := analyzeBody_image env req Trace.init hfile himg hsvc
  have hi := analyzeImage_all_ok env req Trace.init dets url hinf hup hins
  refine ⟨?_, ?_, ?_⟩ <;>
    by_cases hd : dets.length > 0 <;>
      simp [analyze, hb, hi, RespBody.violationFlag, RespBody.vtypeLabel, hd]

/-- Closed instance of `image_verdict_and_label`: an image with one
detection yields verdict `true` and label "Violation Detected". -/
theorem image_verdict_and_label_witness :
    (analyze envW reqImgW).1.body.violationFlag = some true
    ∧ (analyze envW reqImgW).1.body.vtypeLabel = some "Violation Detected" := by
  have h := image_verdict_and_label envW reqImgW [detW] "https://store.example/u"
    rfl rfl rfl rfl (fun _ _ => rfl) (fun _ _ _ _ => rfl)
  refine ⟨by simpa using h.1, ?_⟩
  exact h.2.1.mp (by simpa using h.1)

/-- Claim C3: for every frame whose Detection Set is empty, annotation is
the identity: the annotation step returns its input frame unchanged, the
image path hands the pristine decoded frame to the local artifact write
and the inline-preview encoder, and the video loop writes the input frame
bit-identically to the output sink. -/
theorem empty_detections_annotation_identity :
    (∀ (cvt : CvText) (f : Frame), annStep cvt [] f = f)
    ∧ (∀ (env : Env) (bytes : List Nat),
        env.infer (env.imdecode bytes) = .ok [] →
        run_yolo_on_image_bytes env bytes =
          .ok (env.imdecode bytes, env.imdecode bytes, []))
    ∧ (∀ (env : Env) (req : Request) (t : Trace) (url : String),
        env.infer (env.imdecode req.content) = .ok [] →
        (∀ p d, env.upload p d = .ok url) →
        (∀ a b c d, env.insertRes a b c d = .ok ()) →
        (analyzeImage env req t).2.savedImages = t.savedImages ++
          [("results/" ++ env.outId ++ "_annotated.jpg", env.imdecode req.content)]
        ∧ (analyzeImage env req t).2.encodedFrames =
            t.encodedFrames ++ [env.imdecode req.content])
    ∧ (∀ (env : Env) (det : Frame → List Det) (frames : List Frame)
        (a : Bool) (t : Trace),
        (∀ f ∈ frames, env.infer f = .ok (det f)) →
        t.writtenFrames = [] →
        ∀ n, n < frames.length → det (frames.getD n []) = [] →
        ((videoLoop env frames a t).2.writtenFrames).getD n []
          = frames.getD n []) := by
  refine ⟨fun cvt f => by simp [annStep], ?_, ?_, ?_⟩
  · intro env bytes h
    simp [run_yolo_on_image_bytes, h, annStep]
  · intro env req t url hinf hup hins
    have hi := analyzeImage_all_ok env req t [] url hinf hup hins
    constructor <;> simp [hi]
  · intro env det frames a t hdet hw n hn hempty
    rw [videoLoop_ok env det frames a t hdet]
    simp only [hw, List.nil_append]
    rw [List.getD_eq_getElem?_getD, List.getD_eq_getElem?_getD,
      List.getElem?_map, List.getElem?_eq_getElem (by simpa using hn)]
    have he : frames[n] = frames.getD n [] := by
      rw [List.getD_eq_getElem?_getD, List.getElem?_eq_getElem hn]
      rfl
    show annStep env.cvt (det frames[n]) frames[n] = frames[n]
    rw [he, hempty]
    simp [annStep]

/-- Closed instance of `empty_detections_annotation_identity`: with a
detector that finds nothing, the annotation step is the identity, the
saved artifact is the decoded frame, and the written video frame is the
input frame. -/
theorem empty_detections_annotation_identity_witness :
    annStep cvtW [] frameW = frameW
    ∧ (analyzeImage envNoDet reqImgW Trace.init).2.savedImages =
        Trace.init.savedImages ++
          [("results/" ++ envNoDet.outId ++ "_annotated.jpg",
            envNoDet.imdecode reqImgW.content)]
    ∧ ((videoLoop envNoDet [frameW] false Trace.init).2.writtenFrames).getD 0 []
        = [frameW].getD 0 [] := by
  refine ⟨empty_detections_annotation_identity.1 cvtW frameW, ?_, ?_⟩
  · exact (empty_detections_annotation_identity.2.2.1 envNoDet reqImgW Trace.init
      "https://store.example/u" rfl (fun _ _ => rfl) (fun _ _ _ _ => rfl)).1
  · exact empty_detections_annotation_identity.2.2.2 envNoDet (fun _ => [])
      [frameW] false Trace.init (fun _ _ => rfl) rfl 0 (by decide) rfl

/-- Claim C8: an upload whose declared content type is neither `image/*`
nor `video/*` gets a 400 client error, and the trace is untouched: no
storage upload, no record insert, no published artifact. -/
theorem unsupported_type_rejected_without_calls (env : Env) (req : Request)
    (hfile : req.hasFile = true)
    (himg : pyStartsWith req.mimetype "image/" = false)
    (hvid : pyStartsWith req.mimetype "video/" = false) :
    analyze env req = (⟨400, .err "Unsupported file type"⟩, Trace.init)
    ∧ (analyze env req).2.uploadCalls = 0
    ∧ (analyze env req).2.insertCalls = 0
    ∧ (analyze env req).2.publishedUrls = []
    ∧ (analyze env req).2.recordInserted = false := by
  have hb : analyzeBody env req Trace.init =
      (.ok ⟨400, .err "Unsupported file type"⟩, Trace.init) := by
    simp [analyzeBody, hfile, himg, hvid]
  have hfull : analyze env req = (⟨400, .err "Unsupported file type"⟩, Trace.init) := by
    simp [analyze, hb]
  refine ⟨hfull, ?_, ?_, ?_, ?_⟩ <;> rw [hfull] <;> rfl

/-- Closed instance of `unsupported_type_rejected_without_calls` at
content type `text/plain`. -/
theorem unsupported_type_rejected_without_calls_witness :
    analyze envW reqTxtW = (⟨400, .err "Unsupported file type"⟩, Trace.init) :=
  (unsupported_type_rejected_without_calls envW reqTxtW rfl rfl rfl).1

/-- Claim C9: every error raised inside the `/analyze` pipeline body is
caught at the request boundary and converted into a client-visible 500
error response carrying `str(e)`; the handler always returns a response
(its codomain is `Response × Trace`, with no escaping exception). -/
theorem pipeline_error_converted_at_boundary (env : Env) (req : Request)
    (e : PyErr) (t : Trace)
    (h : analyzeBody env req Trace.init = (.error e, t)) :
    analyze env req = (⟨500, .err e⟩, t) := by
  simp [analyze, h]

/-- Closed instance of `pipeline_error_converted_at_boundary`: a failed
service initialization becomes a 500 error response. -/
theorem pipeline_error_converted_at_boundary_witness :
    analyze envSvcFail reqImgW =
      (⟨500, .err "Missing required environment variable: SUPABASE_URL"⟩,
       Trace.init) :=
  pipeline_error_converted_at_boundary envSvcFail reqImgW _ _ rfl

/-- Claim C10 (implicit): `draw_boxes_on_image` never mutates its input
frame — it draws only on a freshly allocated copy — so after the call the
cell holding the original decoded frame is unchanged, and the returned
reference is a different cell. -/
theorem draw_boxes_on_image_no_input_mutation (cvt : CvText) (s : Store)
    (image_bgr : Nat) (boxes : List Box) (labels : List String)
    (h : image_bgr < s.cells.length) :
    (draw_boxes_on_image cvt s image_bgr boxes labels).1.read image_bgr
        = s.read image_bgr
    ∧ (draw_boxes_on_image cvt s image_bgr boxes labels).2 ≠ image_bgr := by
  constructor
  · show (drawDetLoop cvt s.cells.length (boxes.zip labels)
        (s.alloc (s.read image_bgr)).1).read image_bgr = s.read image_bgr
    rw [drawDetLoop_read_ne _ _ _ _ _ (Nat.ne_of_lt h)]
    exact Store.read_alloc_lt s _ image_bgr h
  · exact Nat.ne_of_gt h

/-- Closed instance of `draw_boxes_on_image_no_input_mutation` on a
one-cell store. -/
theorem draw_boxes_on_image_no_input_mutation_witness :
    0 < storeW.cells.length
    ∧ (draw_boxes_on_image cvtW storeW 0 [detW.box] [detW.label]).1.read 0
        = storeW.read 0
    ∧ (draw_boxes_on_image cvtW storeW 0 [detW.box] [detW.label]).2 ≠ 0 := by
  refine ⟨by decide, ?_, ?_⟩
  · exact (draw_boxes_on_image_no_input_mutation cvtW storeW 0 [detW.box]
      [detW.label] (by decide)).1
  · exact (draw_boxes_on_image_no_input_mutation cvtW storeW 0 [detW.box]
      [detW.label] (by decide)).2

/-- After a normally completed frame loop, the video branch leaves both
handle flags closed, whatever the upload and insert outcomes. -/
theorem analyzeVideo_releases (env : Env) (req : Request) (t : Trace)
    (det : Frame → List Det) (srcFps : ℚ) (frames : List Frame)
    (hopen : env.openVideo req.content = some (srcFps, frames))
    (hdet : ∀ f ∈ frames, env.infer f = .ok (det f)) :
    (analyzeVideo env req t).2.capOpen = false
    ∧ (analyzeVideo env req t).2.writerOpen = false := by
  simp only [analyzeVideo, hopen]
  rw [videoLoop_ok env det frames false _ hdet]
  constructor <;>
  · split
    next e t3 heq => exact absurd heq (by simp)
    next a t3 heq => split <;> (try split) <;> simp

/-- The writer is created with the source fps, or 24 when the source
reports 0, on every path through the video branch that passes the open
check. -/
theorem analyzeVideo_writerFps (env : Env) (req : Request) (t : Trace)
    (srcFps : ℚ) (frames : List Frame)
    (hopen : env.openVideo req.content = some (srcFps, frames)) :
    (analyzeVideo env req t).2.writerFps
      = some (if srcFps = 0 then 24 else srcFps) := by
  simp only [analyzeVideo, hopen]
  obtain ⟨ws, hws⟩ := videoLoop_trace env frames false
    { t with capOpen := true, writerOpen := true, writerFps := some (if srcFps = 0 then 24 else srcFps) }
  split
  next e t3 heq =>
    rw [heq] at hws
    simp at hws
    subst hws
    rfl
  next a t3 heq =>
    rw [heq] at hws
    simp at hws
    subst hws
    split <;> (try split) <;> rfl

/-- The written output frames of the video branch are exactly the
annotation-step images of the input frames, in order, whatever the upload
and insert outcomes. -/
theorem analyzeVideo_writtenFrames (env : Env) (req : Request) (t : Trace)
    (det : Frame → List Det) (srcFps : ℚ) (frames : List Frame)
    (hopen : env.openVideo req.content = some (srcFps, frames))
    (hdet : ∀ f ∈ frames, env.infer f = .ok (det f)) :
    (analyzeVideo env req t).2.writtenFrames
      = t.writtenFrames ++ frames.map fun f => annStep env.cvt (det f) f := by
  simp only [analyzeVideo, hopen]
  rw [videoLoop_ok env det frames false _ hdet]
  split
  next e t3 heq => exact absurd heq (by simp)
  next a t3 heq =>
    have ht3 : t3.writtenFrames
        = t.writtenFrames ++ frames.map fun f => annStep env.cvt (det f) f := by
      have := congrArg Prod.snd heq
      simp at this
      simp [← this]
    split <;> (try split) <;> simp [ht3]

/-- Claim C4 (amended): when the frame loop reaches end-of-stream with no
mid-loop exception, both sides of the Stream Handle are released,
regardless of the later upload and record-insert outcomes.  The original
claim — release on every exit path, including a mid-loop exception — fails
on the code: see the counterexample, where an inference error leaves both
sides open. -/
theorem stream_handles_released_on_normal_completion (env : Env)
    (req : Request) (det : Frame → List Det) (srcFps : ℚ)
    (frames : List Frame)
    (hfile : req.hasFile = true)
    (himg : pyStartsWith req.mimetype "image/" = false)
    (hvid : pyStartsWith req.mimetype "video/" = true)
    (hsvc : env.ensureServices = .ok ())
    (hopen : env.openVideo req.content = some (srcFps, frames))
    (hdet : ∀ f ∈ frames, env.infer f = .ok (det f)) :
    (analyze env req).2.capOpen = false
    ∧ (analyze env req).2.writerOpen = false := by
  have hb := analyzeBody_video env req Trace.init hfile himg hvid hsvc
  have h2 : (analyze env req).2 = (analyzeVideo env req Trace.init).2 := by
    rw [analyze_snd, hb]
  rw [h2]
  exact analyzeVideo_releases env req Trace.init det srcFps frames hopen hdet

/-- Closed instance of `stream_handles_released_on_normal_completion`. -/
theorem stream_handles_released_witness :
    (analyze envW reqVidW).2.capOpen = false
    ∧ (analyze envW reqVidW).2.writerOpen = false :=
  stream_handles_released_on_normal_completion envW reqVidW (fun _ => [detW])
    30 [frameW, frameW] rfl rfl rfl rfl rfl (fun _ _ => rfl)

/-- Counterexample to claim C4 as stated: with a detector that raises on
the first frame, the video branch exits mid-loop with a 500 response and
BOTH the capture and the writer still open — no release happens on the
exception path (lines 210-211 run only after a normal loop exit). -/
theorem stream_handles_leak_on_midloop_error :
    (analyze envBoom reqVidW).1.status = 500
    ∧ (analyze envBoom reqVidW).2.capOpen = true
    ∧ (analyze envBoom reqVidW).2.writerOpen = true := by decide

/-- Claim C6: the output is written at the source frame rate whenever the
source reports a positive rate, and at the fixed fallback 24 when the
source reports zero (Python `or` truthiness on `cap.get(CAP_PROP_FPS)`). -/
theorem output_fps_matches_input_or_fallback_24 (env : Env) (req : Request)
    (srcFps : ℚ) (frames : List Frame)
    (hfile : req.hasFile = true)
    (himg : pyStartsWith req.mimetype "image/" = false)
    (hvid : pyStartsWith req.mimetype "video/" = true)
    (hsvc : env.ensureServices = .ok ())
    (hopen : env.openVideo req.content = some (srcFps, frames)) :
    (0 < srcFps → (analyze env req).2.writerFps = some srcFps)
    ∧ (srcFps = 0 → (analyze env req).2.writerFps = some 24) := by
  have hb := analyzeBody_video env req Trace.init hfile himg hvid hsvc
  have h2 : (analyze env req).2 = (analyzeVideo env req Trace.init).2 := by
    rw [analyze_snd, hb]
  have hw := analyzeVideo_writerFps env req Trace.init srcFps frames hopen
  constructor
  · intro hpos
    rw [h2, hw, if_neg (ne_of_gt hpos)]
  · intro h0
    rw [h2, hw, if_pos h0]

/-- Closed instance of `output_fps_matches_input_or_fallback_24`: a source
reporting 30 writes at 30; a source reporting 0 writes at 24. -/
theorem output_fps_matches_input_or_fallback_24_witness :
    (analyze envW reqVidW).2.writerFps = some 30
    ∧ (analyze envFps0 reqVidW).2.writerFps = some 24 :=
  ⟨(output_fps_matches_input_or_fallback_24 envW reqVidW 30 [frameW, frameW]
      rfl rfl rfl rfl rfl).1 (by norm_num),
   (output_fps_matches_input_or_fallback_24 envFps0 reqVidW 0 [frameW]
      rfl rfl rfl rfl rfl).2 rfl⟩

/-- Claim C7: exactly one output frame is written per input frame, in
strict input order: the written frame count equals the input frame count
and written frame N is the annotation step applied to input frame N. -/
theorem one_output_frame_per_input_frame_in_order (env : Env)
    (req : Request) (det : Frame → List Det) (srcFps : ℚ)
    (frames : List Frame)
    (hfile : req.hasFile = true)
    (himg : pyStartsWith req.mimetype "image/" = false)
    (hvid : pyStartsWith req.mimetype "video/" = true)
    (hsvc : env.ensureServices = .ok ())
    (hopen : env.openVideo req.content = some (srcFps, frames))
    (hdet : ∀ f ∈ frames, env.infer f = .ok (det f)) :
    (analyze env req).2.writtenFrames.length = frames.length
    ∧ ∀ n, n < frames.length →
        (analyze env req).2.writtenFrames.getD n []
          = annStep env.cvt (det (frames.getD n [])) (frames.getD n []) := by
  have hb := analyzeBody_video env req Trace.init hfile himg hvid hsvc
  have h2 : (analyze env req).2 = (analyzeVideo env req Trace.init).2 := by
    rw [analyze_snd, hb]
  have hwf := analyzeVideo_writtenFrames env req Trace.init det srcFps frames
    hopen hdet
  have h0 : Trace.init.writtenFrames = [] := rfl
  rw [h2, hwf, h0, List.nil_append]
  constructor
  · simp
  · intro n hn
    have hmap : (frames.map fun f => annStep env.cvt (det f) f).getD n []
        = annStep env.cvt (det frames[n]) frames[n] := by
      rw [List.getD_eq_getElem?_getD, List.getElem?_map,
        List.getElem?_eq_getElem (by simpa using hn)]
      rfl
    have he : frames.getD n [] = frames[n] := by
      rw [List.getD_eq_getElem?_getD, List.getElem?_eq_getElem hn]
      rfl
    rw [hmap, he]

/-- Closed instance of `one_output_frame_per_input_frame_in_order` on a
two-frame video. -/
theorem one_output_frame_per_input_frame_in_order_witness :
    (analyze envW reqVidW).2.writtenFrames.length = 2
    ∧ (analyze envW reqVidW).2.writtenFrames.getD 0 []
        = annStep envW.cvt [detW] frameW := by
  have h := one_output_frame_per_input_frame_in_order envW reqVidW
    (fun _ => [detW]) 30 [frameW, frameW] rfl rfl rfl rfl rfl (fun _ _ => rfl)
  exact ⟨h.1, h.2 0 (by decide)⟩

/-- Outcome analysis of the image branch: an `ok` exit is always the
complete 200 response with the record inserted and exactly the one
published artifact it reports; an exception exit leaves no record. -/
theorem analyzeImage_c5 (env : Env) (req : Request) :
    (∀ resp tr, analyzeImage env req Trace.init = (.ok resp, tr) →
        resp.status = 200 ∧ tr.recordInserted = true
        ∧ ∃ u, resp.body.urlOf = some u ∧ tr.publishedUrls = [u])
    ∧ (∀ e tr, analyzeImage env req Trace.init = (.error e, tr) →
        tr.recordInserted = false) := by
  cases hinf : env.infer (env.imdecode req.content) with
  | error e0 =>
    have heq : analyzeImage env req Trace.init = (.error e0, Trace.init) := by
      simp [analyzeImage, run_yolo_on_image_bytes, hinf]
    constructor
    · intro resp tr h
      rw [heq] at h
      simp at h
    · intro e tr h
      rw [heq] at h
      rw [Prod.mk.injEq] at h
      obtain ⟨h1, h2⟩ := h
      rw [← h2]
      rfl
  | ok dets =>
    constructor
    · intro resp tr h
      simp only [analyzeImage, run_yolo_on_image_bytes, hinf] at h
      split at h
      next e1 hequ => simp at h
      next u hequ =>
        split at h
        next e2 heqi => simp at h
        next heqi =>
          rw [Prod.mk.injEq] at h
          obtain ⟨h1, h2⟩ := h
          injection h1 with h1
          subst h1
          subst h2
          exact ⟨rfl, rfl, u, rfl, rfl⟩
    · intro e tr h
      simp only [analyzeImage, run_yolo_on_image_bytes, hinf] at h
      split at h
      next e1 hequ =>
        rw [Prod.mk.injEq] at h
        obtain ⟨h1, h2⟩ := h
        rw [← h2]
        rfl
      next u hequ =>
        split at h
        next e2 heqi =>
          rw [Prod.mk.injEq] at h
          obtain ⟨h1, h2⟩ := h
          rw [← h2]
          rfl
        next heqi => simp at h

/-- Outcome analysis of the video branch: an `ok` exit is either the 400
failed-open response with nothing recorded, or the complete 200 response
with the record inserted and exactly the one published artifact it
reports; an exception exit leaves no record. -/
theorem analyzeVideo_c5 (env : Env) (req : Request) :
    (∀ resp tr, analyzeVideo env req Trace.init = (.ok resp, tr) →
        (resp.status = 400 ∧ tr.recordInserted = false)
        ∨ (resp.status = 200 ∧ tr.recordInserted = true
            ∧ ∃ u, resp.body.urlOf = some u ∧ tr.publishedUrls = [u]))
    ∧ (∀ e tr, analyzeVideo env req Trace.init = (.error e, tr) →
        tr.recordInserted = false) := by
  cases hopen : env.openVideo req.content with
  | none =>
    have heq : analyzeVideo env req Trace.init =
        (.ok ⟨400, .err "Failed to read video"⟩, Trace.init) := by
      simp [analyzeVideo, hopen]
    constructor
    · intro resp tr h
      rw [heq] at h
      rw [Prod.mk.injEq] at h
      obtain ⟨h1, h2⟩ := h
      injection h1 with h1
      subst h1
      subst h2
      left
      exact ⟨rfl, rfl⟩
    · intro e tr h
      rw [heq] at h
      simp at h
  | some q =>
    obtain ⟨srcFps, frames⟩ := q
    obtain ⟨ws, hws⟩ := videoLoop_trace env frames false
      { Trace.init with capOpen := true, writerOpen := true, writerFps := some (if srcFps = 0 then 24 else srcFps) }
    constructor
    · intro resp tr h
      simp only [analyzeVideo, hopen] at h
      split at h
      next e1 t3 heql => simp at h
      next a t3 heql =>
        rw [heql] at hws
        simp at hws
        subst hws
        split at h
        next e2 hequ => simp at h
        next u hequ =>
          split at h
          next e3 heqi => simp at h
          next heqi =>
            rw [Prod.mk.injEq] at h
            obtain ⟨h1, h2⟩ := h
            injection h1 with h1
            subst h1
            subst h2
            right
            exact ⟨rfl, rfl, u, rfl, rfl⟩
    · intro e tr h
      simp only [analyzeVideo, hopen] at h
      split at h
      next e1 t3 heql =>
        rw [heql] at hws
        simp at hws
        subst hws
        rw [Prod.mk.injEq] at h
        obtain ⟨h1, h2⟩ := h
        rw [← h2]
        rfl
      next a t3 heql =>
        rw [heql] at hws
        simp at hws
        subst hws
        split at h
        next e2 hequ =>
          rw [Prod.mk.injEq] at h
          obtain ⟨h1, h2⟩ := h
          rw [← h2]
          rfl
        next u hequ =>
          split at h
          next e3 heqi =>
            rw [Prod.mk.injEq] at h
            obtain ⟨h1, h2⟩ := h
            rw [← h2]
            rfl
          next heqi => simp at h

/-- Outcome analysis of the whole `try` body, `ok` exits. -/
theorem analyzeBody_c5_ok (env : Env) (req : Request) :
    ∀ resp tr, analyzeBody env req Trace.init = (.ok resp, tr) →
      (resp.status ≠ 200 ∧ tr.recordInserted = false)
      ∨ (resp.status = 200 ∧ tr.recordInserted = true
          ∧ ∃ u, resp.body.urlOf = some u ∧ tr.publishedUrls = [u]) := by
  intro resp tr h
  simp only [analyzeBody] at h
  split at h
  · rw [Prod.mk.injEq] at h
    obtain ⟨h1, h2⟩ := h
    injection h1 with h1
    subst h1
    subst h2
    left
    exact ⟨by decide, rfl⟩
  · split at h
    · rw [Prod.mk.injEq] at h
      obtain ⟨h1, h2⟩ := h
      injection h1 with h1
      subst h1
      subst h2
      left
      exact ⟨by decide, rfl⟩
    · split at h
      next e0 hsvc => simp at h
      next hsvc =>
        split at h
        · rcases (analyzeImage_c5 env req).1 resp tr h with ⟨hs, hrec, u, hurl, hpub⟩
          right
          exact ⟨hs, hrec, u, hurl, hpub⟩
        · rcases (analyzeVideo_c5 env req).1 resp tr h with
            ⟨hs, hrec⟩ | ⟨hs, hrec, u, hurl, hpub⟩
          · left
            exact ⟨by rw [hs]; decide, hrec⟩
          · right
            exact ⟨hs, hrec, u, hurl, hpub⟩

/-- Outcome analysis of the whole `try` body, exception exits. -/
theorem analyzeBody_c5_err (env : Env) (req : Request) :
    ∀ e tr, analyzeBody env req Trace.init = (.error e, tr) →
      tr.recordInserted = false := by
  intro e tr h
  simp only [analyzeBody] at h
  split at h
  · simp at h
  · split at h
    · simp at h
    · split at h
      next e0 hsvc =>
        rw [Prod.mk.injEq] at h
        obtain ⟨h1, h2⟩ := h
        rw [← h2]
        rfl
      next hsvc =>
        split at h
        · exact (analyzeImage_c5 env req).2 e tr h
        · exact (analyzeVideo_c5 env req).2 e tr h

/-- Claim C5: a request that fails at any step fails outright with no
partial result published as successful: an error response implies no
violation record was inserted, and a success response implies the record
was inserted and the single published artifact is exactly the one the
response reports. -/
theorem no_partial_result_published (env : Env) (req : Request) :
    ((analyze env req).1.status ≠ 200 →
        (analyze env req).2.recordInserted = false)
    ∧ ((analyze env req).1.status = 200 →
        (analyze env req).2.recordInserted = true
        ∧ ∃ u, (analyze env req).1.body.urlOf = some u
            ∧ (analyze env req).2.publishedUrls = [u]) := by
  rcases hbody : analyzeBody env req Trace.init with ⟨r, tr⟩
  cases r with
  | ok resp =>
    have ha : analyze env req = (resp, tr) := by simp [analyze, hbody]
    rcases analyzeBody_c5_ok env req resp tr hbody with
      ⟨hs, hrec⟩ | ⟨hs, hrec, u, hurl, hpub⟩
    · rw [ha]
      exact ⟨fun _ => hrec, fun h200 => absurd h200 hs⟩
    · rw [ha]
      exact ⟨fun hne => absurd hs hne, fun _ => ⟨hrec, u, hurl, hpub⟩⟩
  | error e =>
    have ha : analyze env req = (⟨500, .err e⟩, tr) := by simp [analyze, hbody]
    have hrec := analyzeBody_c5_err env req e tr hbody
    rw [ha]
    exact ⟨fun _ => hrec, fun h200 => absurd h200 (by simp)⟩

/-- Closed instance of `no_partial_result_published`: a request failing at
service initialization gets an error response and no record. -/
theorem no_partial_result_published_witness :
    (analyze envSvcFail reqImgW).2.recordInserted = false :=
  (no_partial_result_published envSvcFail reqImgW).1 (by decide)

end TrafficViolation
